import Mathlib

/-!
Shallow embedding of the GeoPackage merge/deduplicate/reconcile pipeline of
`brain.py` and the error wrapper of `error_handler.py`.

Cells of tabular data are modelled by `Value`; a pandas `NaN` is `Value.null`.
`Value.series` models the pandas behaviour of storing an entire column
(a `Series` object) inside a single cell, which the source can produce.
`Value.reproj src v` models the geometry value `v` after `to_crs` reprojection
from CRS `src` to EPSG:4326.
-/

inductive Value where
  | null : Value
  | str (s : String) : Value
  | num (n : Int) : Value
  | series (vs : List Value) : Value
  | reproj (src : String) (v : Value) : Value

mutual

def Value.decEq : (a b : Value) → Decidable (a = b)
  | .null, .null => isTrue rfl
  | .null, .str _ => isFalse (fun h => Value.noConfusion h)
  | .null, .num _ => isFalse (fun h => Value.noConfusion h)
  | .null, .series _ => isFalse (fun h => Value.noConfusion h)
  | .null, .reproj _ _ => isFalse (fun h => Value.noConfusion h)
  | .str _, .null => isFalse (fun h => Value.noConfusion h)
  | .str a, .str b =>
      if hs : a = b then isTrue (by rw [hs])
      else isFalse (by intro hh; injection hh; exact hs (by assumption))
  | .str _, .num _ => isFalse (fun h => Value.noConfusion h)
  | .str _, .series _ => isFalse (fun h => Value.noConfusion h)
  | .str _, .reproj _ _ => isFalse (fun h => Value.noConfusion h)
  | .num _, .null => isFalse (fun h => Value.noConfusion h)
  | .num _, .str _ => isFalse (fun h => Value.noConfusion h)
  | .num a, .num b =>
      if hs : a = b then isTrue (by rw [hs])
      else isFalse (by intro hh; injection hh; exact hs (by assumption))
  | .num _, .series _ => isFalse (fun h => Value.noConfusion h)
  | .num _, .reproj _ _ => isFalse (fun h => Value.noConfusion h)
  | .series _, .null => isFalse (fun h => Value.noConfusion h)
  | .series _, .str _ => isFalse (fun h => Value.noConfusion h)
  | .series _, .num _ => isFalse (fun h => Value.noConfusion h)
  | .series as, .series bs =>
      match Value.decEqList as bs with
      | isTrue h => isTrue (by rw [h])
      | isFalse h => isFalse (by intro hh; injection hh; exact h (by assumption))
  | .series _, .reproj _ _ => isFalse (fun h => Value.noConfusion h)
  | .reproj _ _, .null => isFalse (fun h => Value.noConfusion h)
  | .reproj _ _, .str _ => isFalse (fun h => Value.noConfusion h)
  | .reproj _ _, .num _ => isFalse (fun h => Value.noConfusion h)
  | .reproj _ _, .series _ => isFalse (fun h => Value.noConfusion h)
  | .reproj s1 v1, .reproj s2 v2 =>
      if hs : s1 = s2 then
        match Value.decEq v1 v2 with
        | isTrue hv => isTrue (by rw [hs, hv])
        | isFalse hv => isFalse (by intro hh; injection hh; exact hv (by assumption))
      else isFalse (by intro hh; injection hh; exact hs (by assumption))

def Value.decEqList : (as bs : List Value) → Decidable (as = bs)
  | [], [] => isTrue rfl
  | [], _ :: _ => isFalse (fun h => List.noConfusion h)
  | _ :: _, [] => isFalse (fun h => List.noConfusion h)
  | a :: as, b :: bs =>
      match Value.decEq a b with
      | isTrue h1 =>
        match Value.decEqList as bs with
        | isTrue h2 => isTrue (by rw [h1, h2])
        | isFalse h2 => isFalse (by intro hh; injection hh; exact h2 (by assumption))
      | isFalse h1 => isFalse (by intro hh; injection hh; exact h1 (by assumption))

end

instance : DecidableEq Value := Value.decEq

/-- A dataframe row: association list from column name to cell value.
A column absent from the list reads as `Value.null` (pandas `NaN`). -/
abbrev Row := List (String × Value)

/-- Reading cell `c` of row `r` (missing cell = `NaN`). -/
def attr (r : Row) (c : String) : Value :=
  (r.lookup c).getD Value.null

/-- Writing cell `c` of row `r` (pandas column assignment at row level). -/
def setAttr (r : Row) (c : String) (v : Value) : Row :=
  if r.any (fun p => p.fst = c) then
    r.map (fun p => if p.fst = c then (c, v) else p)
  else r ++ [(c, v)]

/-- A GeoDataFrame: column names, rows, and an optional CRS. -/
structure GeoDataFrame where
  cols : List String
  rows : List Row
  crs : Option String
deriving DecidableEq

/-- `gdf[c]` as a list of cell values. -/
def getCol (g : GeoDataFrame) (c : String) : List Value :=
  g.rows.map (fun r => attr r c)

/-- `gdf[c] = scalar`: assign one value to the whole column. -/
def setColConst (g : GeoDataFrame) (c : String) (v : Value) : GeoDataFrame :=
  { cols := if c ∈ g.cols then g.cols else g.cols ++ [c]
    rows := g.rows.map (fun r => setAttr r c v)
    crs := g.crs }

/-- `gdf[c] = series`: assign a list of values (one per row) to a column. -/
def setColVals (g : GeoDataFrame) (c : String) (vs : List Value) : GeoDataFrame :=
  { cols := if c ∈ g.cols then g.cols else g.cols ++ [c]
    rows := List.zipWith (fun r v => setAttr r c v) g.rows vs
    crs := g.crs }

/-! ### Python string primitives used by `update_observer_and_species_in_gpkg` -/

/-- The characters Python's `\s` class matches (ASCII range). -/
def pyIsSpace (c : Char) : Bool :=
  c = ' ' || c = '\t' || c = '\n' || c = '\r' || c = '\x0b' || c = '\x0c'

/-- A character admitted by the regex class `[^\s,]`. -/
def linkChar (c : Char) : Bool :=
  !(pyIsSpace c) && c ≠ ','

/-- Python `str.strip()`. -/
def pyStrip (s : String) : String :=
  String.mk (((s.toList.dropWhile pyIsSpace).reverse.dropWhile pyIsSpace).reverse)

/-- Python `str(x)` on an optional cell: `str(nan)` is the string `"nan"`. -/
def pyStr : Option String → String
  | none => "nan"
  | some s => s

/-- Try to match the scheme part `https?://` of the regex at the head of the
character list; on success return the consumed characters and the rest. -/
def matchScheme : List Char → Option (List Char × List Char)
  | 'h' :: 't' :: 't' :: 'p' :: 's' :: ':' :: '/' :: '/' :: rest =>
      some (['h', 't', 't', 'p', 's', ':', '/', '/'], rest)
  | 'h' :: 't' :: 't' :: 'p' :: ':' :: '/' :: '/' :: rest =>
      some (['h', 't', 't', 'p', ':', '/', '/'], rest)
  | _ => none

/-- Worker for `re.findall(r'https?://[^\s,]+', s)`: scan left to right, at
each position try to match the scheme followed by a nonempty greedy run of
`[^\s,]` characters; on success emit the match and resume after it, else
advance one character.  `fuel` bounds the recursion; `fuel = length` suffices
because every step consumes at least one character. -/
def findallAux : Nat → List Char → List String
  | 0, _ => []
  | _ + 1, [] => []
  | fuel + 1, c :: rest =>
    match matchScheme (c :: rest) with
    | some (pre, rest1) =>
        let body := rest1.takeWhile linkChar
        if body.isEmpty then findallAux fuel rest
        else String.mk (pre ++ body) :: findallAux fuel (rest1.drop body.length)
    | none => findallAux fuel rest

/-- `re.findall(r'https?://[^\s,]+', s)`. -/
def findallLinks (s : String) : List String :=
  findallAux s.toList.length s.toList

/-- Does the character list begin with `id=`? -/
def startsWithId : List Char → Bool
  | a :: b :: c :: _ => a = 'i' && b = 'd' && c = '='
  | _ => false

/-- Python `'id=' in link`. -/
def hasIdChars : List Char → Bool
  | [] => false
  | c :: rest => startsWithId (c :: rest) || hasIdChars rest

/-- Worker for Python `link.split('id=')`; `fuel = length` suffices because
every step consumes at least one character. -/
def pySplitIdAux : Nat → List Char → List (List Char)
  | 0, _ => [[]]
  | _ + 1, [] => [[]]
  | fuel + 1, c :: rest =>
    if startsWithId (c :: rest) then [] :: pySplitIdAux fuel (rest.drop 2)
    else
      match pySplitIdAux fuel rest with
      | s :: ss => (c :: s) :: ss
      | [] => [[c]]

/-- Python `link.split('id=')`: split on every non-overlapping occurrence of
`id=`, scanning left to right. -/
def pySplitId (cs : List Char) : List (List Char) :=
  pySplitIdAux cs.length cs

/-- The identifier the source computes: `link.split('id=')[1].split('&')[0]`
(the guard `'id=' in link` ensures index 1 exists). -/
def codeFileId (link : String) : String :=
  match pySplitId link.toList with
  | _ :: p1 :: _ => String.mk (p1.takeWhile (fun c => c ≠ '&'))
  | _ => ""

/-- The characters following the first occurrence of `id=`. -/
def afterFirstIdChars : List Char → List Char
  | [] => []
  | c :: rest => if startsWithId (c :: rest) then rest.drop 2 else afterFirstIdChars rest

/-- Scan a character list, stopping at the first `&` or at the start of the
next occurrence of `id=`, whichever comes first. -/
def cutIdChars : List Char → List Char
  | [] => []
  | c :: rest =>
    if c = '&' then []
    else if startsWithId (c :: rest) then []
    else c :: cutIdChars rest

/-- Spec-side identifier (amended wording): the portion of the link after the
first `id=`, truncated at the first `&` or at the next `id=` occurrence,
whichever comes first. -/
def specFileId (link : String) : String :=
  String.mk (cutIdChars (afterFirstIdChars link.toList))

/-- Claim-side identifier (original wording): the substring of the link
between `id=` and the next `&`. -/
def claimFileId (link : String) : String :=
  String.mk ((afterFirstIdChars link.toList).takeWhile (fun c => c ≠ '&'))

/-! ### The upload spreadsheet and the file-identifier → observer mapping -/

/-- One row of the upload spreadsheet: the cells
`Upload your gpkg files here` and `Include your name here`
(`none` models a null/NaN cell). -/
structure SheetRow where
  links : Option String
  name : Option String
deriving DecidableEq

/-- A spreadsheet: its list of rows. -/
abbrev SheetTable := List SheetRow

/-- Python dict assignment `m[k] = v`: overwrite if present, else add. -/
def dictInsert (m : List (String × String)) (k v : String) : List (String × String) :=
  if m.any (fun p => p.fst = k) then
    m.map (fun p => if p.fst = k then (k, v) else p)
  else m ++ [(k, v)]

/-- Processing one spreadsheet row of the `id_to_name` loop.  The source
computes `name = str(row[...]).strip()` before testing
`pd.isna(links_cell) or pd.isna(name)`; since `name` is by then a Python
string, its `isna` test is always false, so only a null links cell skips
the row. -/
def rowStep (m : List (String × String)) (r : SheetRow) : List (String × String) :=
  match r.links with
  | none => m
  | some cell =>
      let name := pyStrip (pyStr r.name)
      (findallLinks cell).foldl
        (fun m link =>
          if hasIdChars link.toList then dictInsert m (codeFileId link) name else m)
        m

/-- The `id_to_name` mapping built from the spreadsheet rows. -/
def buildIdToName (rows : SheetTable) : List (String × String) :=
  rows.foldl rowStep []

/-! ### The species reference table -/

/-- One row of the species CSV: key plus the two display fields. -/
structure SpeciesRec where
  species : String
  type : Value
  english_name : Value
deriving DecidableEq

/-- `species_df.set_index('species')[['type','english_name']].to_dict(orient='index')`:
pandas raises `ValueError` when the index has duplicates, hence `none` in
that case. -/
def speciesMappingOf (csv : List SpeciesRec) : Option (List (String × SpeciesRec)) :=
  if (csv.map (fun r => r.species)).Nodup then
    some (csv.map (fun r => (r.species, r)))
  else none

/-- `species_mapping.get(sp, {})` membership test: only a string cell equal to
a CSV key hits the dict. -/
def lookupSpecies (m : List (String × SpeciesRec)) (sp : Value) : Option SpeciesRec :=
  match sp with
  | Value.str s => m.lookup s
  | _ => none

/-- The default of `{}.get(field, gdf.get(c))`: `gdf.get(c)` is the whole
column as a `Series` when the column exists, else Python `None`. -/
def wholeColDefault (g : GeoDataFrame) (c : String) : Value :=
  if c ∈ g.cols then Value.series (getCol g c) else Value.null

/-- `gdf['type'] = gdf['species'].map(lambda sp: species_mapping.get(sp, {}).get('type', gdf.get('type')))`
(line 128 of `brain.py`). -/
def updTypeCol (m : List (String × SpeciesRec)) (g : GeoDataFrame) : GeoDataFrame :=
  setColVals g "type"
    (g.rows.map (fun r =>
      match lookupSpecies m (attr r "species") with
      | some sr => sr.type
      | none => wholeColDefault g "type"))

/-- Line 129 of `brain.py`, evaluated on the dataframe after the `type`
assignment. -/
def updEnglishCol (m : List (String × SpeciesRec)) (g1 : GeoDataFrame) : GeoDataFrame :=
  setColVals g1 "english_name"
    (g1.rows.map (fun r =>
      match lookupSpecies m (attr r "species") with
      | some sr => sr.english_name
      | none => wholeColDefault g1 "english_name"))

/-- The species-based update of `type` and `english_name`
(lines 127-132 of `brain.py`); applied only when `species` is a column.
Note the fallback for an unmatched species stores `gdf.get(c)` — the entire
column — as the cell value. -/
def updGdfSpecies (m : List (String × SpeciesRec)) (g : GeoDataFrame) : GeoDataFrame :=
  if "species" ∈ g.cols then updEnglishCol m (updTypeCol m g) else g

/-! ### GeoPackage files and the in-place update step -/

/-- A `.gpkg` file: its basename without extension and its named layers. -/
structure GpkgFile where
  baseName : String
  layers : List (String × GeoDataFrame)
deriving DecidableEq

/-- `gpd.read_file(path)` with no layer argument reads the first layer;
a file with no layers raises, modelled as `none`. -/
def readFirstLayer (f : GpkgFile) : Option GeoDataFrame :=
  (f.layers.head?).map (fun p => p.snd)

/-- The per-file body of the update loop (lines 103-137 of `brain.py`):
skip unmapped files, skip unreadable files, overwrite the `observer` column
when present, apply the species update when `species` is present, and save
back as the single layer named after the file. -/
def updFile (m : List (String × String)) (sm : List (String × SpeciesRec))
    (f : GpkgFile) : GpkgFile :=
  match m.lookup f.baseName with
  | none => f
  | some nm =>
    match readFirstLayer f with
    | none => f
    | some g =>
      let g1 := if "observer" ∈ g.cols then setColConst g "observer" (Value.str nm) else g
      let g2 := updGdfSpecies sm g1
      { baseName := f.baseName, layers := [(f.baseName, g2)] }

/-- Errors `run_pipeline` can raise in the modelled fragment. -/
inductive PErr where
  | csvMissing
  | dupSpecies
  | mergedMissing
  | finalMissing
deriving DecidableEq

/-- `update_observer_and_species_in_gpkg` (lines 37-137 of `brain.py`):
reads the species CSV (raising when the file is missing or the mapping has
duplicate keys), returns unchanged when no Excel sheet is present, else
builds `id_to_name` from the first sheet and rewrites each mapped file. -/
def updateObserverAndSpeciesInGpkg (csv : Option (List SpeciesRec))
    (sheets : List SheetTable) (files : List GpkgFile) :
    Except PErr (List GpkgFile) :=
  match csv with
  | none => .error .csvMissing
  | some rows =>
    match speciesMappingOf rows with
    | none => .error .dupSpecies
    | some sm =>
      match sheets.head? with
      | none => .ok files
      | some sheet =>
        let m := buildIdToName sheet
        .ok (files.map (updFile m sm))

/-! ### Merging (`merge_gpkg_files`, lines 139-199 of `brain.py`) -/

/-- `gdf.to_crs("EPSG:4326")`: every geometry value is transformed and the
CRS becomes EPSG:4326; other columns are untouched. -/
def toCrs (g : GeoDataFrame) : GeoDataFrame :=
  { cols := g.cols
    rows := g.rows.map (fun r =>
      setAttr r "geometry" (Value.reproj (g.crs.getD "") (attr r "geometry")))
    crs := some "EPSG:4326" }

/-- The per-layer normalisation before concatenation: reproject when the CRS
is set and differs from EPSG:4326 (`if gdf.crs and gdf.crs.to_string() != target_crs`). -/
def normLayer (g : GeoDataFrame) : GeoDataFrame :=
  if g.crs ≠ none ∧ g.crs ≠ some "EPSG:4326" then toCrs g else g

/-- Order-preserving union of column lists, as `pd.concat` aligns columns. -/
def listUnion (a b : List String) : List String :=
  a ++ b.filter (fun c => c ∉ a)

/-- The datasets contributing to the merge: for each file, the layer named
like the file (skipped when absent), normalised. -/
def mergeContrib (files : List GpkgFile) : List GeoDataFrame :=
  files.filterMap (fun f =>
    match f.layers.lookup f.baseName with
    | none => none
    | some g => some (normLayer g))

/-- `merge_gpkg_files`: `none` when no file or no data was read (the function
returns without writing); otherwise the concatenated dataset written to the
output path. -/
def mergeGpkgFiles (files : List GpkgFile) : Option GeoDataFrame :=
  if files.isEmpty then none
  else
    let contrib := mergeContrib files
    if contrib.isEmpty then none
    else some
      { cols := contrib.foldl (fun acc g => listUnion acc g.cols) []
        rows := (contrib.map (fun g => g.rows)).flatten
        crs := contrib.head?.bind (fun g => g.crs) }

/-! ### Deduplication (`remove_duplicates_from_gpkg`, lines 201-253 of `brain.py`) -/

/-- The key triple of `drop_duplicates(subset=['geometry','species','observer'])`. -/
def tripleOf (r : Row) : Value × Value × Value :=
  (attr r "geometry", attr r "species", attr r "observer")

/-- `drop_duplicates` with `keep='first'`: keep the first row of each triple. -/
def dedupAux (seen : List (Value × Value × Value)) : List Row → List Row
  | [] => []
  | r :: rs =>
    if tripleOf r ∈ seen then dedupAux seen rs
    else r :: dedupAux (tripleOf r :: seen) rs

/-- `gdf.drop_duplicates(subset=['geometry','species','observer'])`. -/
def dropDupsTriple (g : GeoDataFrame) : GeoDataFrame :=
  { g with rows := dedupAux [] g.rows }

/-- Concatenation of two datasets (`pd.concat([gdf, df_extra], ignore_index=True)`). -/
def concat2 (a b : GeoDataFrame) : GeoDataFrame :=
  { cols := listUnion a.cols b.cols
    rows := a.rows ++ b.rows
    crs := a.crs }

/-- `remove_duplicates_from_gpkg`: reads the input (`none` when that read
fails, the function then returns `False` and writes nothing); when the output
path already holds a dataset it is read, reprojected when needed, and
concatenated with the input into `_df` — which the source never uses
afterwards; the saved dataset is `gdf.drop_duplicates(...)` of the input
alone (`none` also when a subset column is missing, a `KeyError`). -/
def removeDuplicatesFromGpkg (input : Option GeoDataFrame)
    (existingOut : Option GeoDataFrame) : Option GeoDataFrame :=
  match input with
  | none => none
  | some gdf =>
    let _df := match existingOut with
      | some extra => concat2 gdf (normLayer extra)
      | none => gdf
    if "geometry" ∈ gdf.cols ∧ "species" ∈ gdf.cols ∧ "observer" ∈ gdf.cols then
      some (dropDupsTriple gdf)
    else none

/-! ### The run log (`update_excel_log`, lines 255-287 of `brain.py`) -/

/-- One row of `log.xlsx`. -/
structure LogRow where
  timestamp : String
  files_processed : Nat
  total_gpkg_rows_merged : Nat
  final_rows_saved : Nat
  note : String
deriving DecidableEq

/-- `update_excel_log`: read the existing log when present, append the new
summary row, write the result back. -/
def updateExcelLog (existing : Option (List LogRow)) (ts : String)
    (fp tm fs : Nat) (note : String) : List LogRow :=
  let newLog : List LogRow := [⟨ts, fp, tm, fs, note⟩]
  match existing with
  | some rows => rows ++ newLog
  | none => newLog

/-! ### The pipeline (`run_pipeline`, lines 289-348 of `brain.py`) -/

/-- The files the pipeline touches: the input directory's `.gpkg` files and
Excel sheets, the species CSV, the merged output path, the main-dataset
output path, and the log next to the output. -/
structure World where
  speciesCsv : Option (List SpeciesRec)
  excelSheets : List SheetTable
  gpkgFiles : List GpkgFile
  mergedOut : Option GeoDataFrame
  mainOut : Option GeoDataFrame
  logFile : Option (List LogRow)
deriving DecidableEq

/-- `run_pipeline`: requires exactly one Excel sheet (else it prints and
returns with the world untouched), then update → merge → deduplicate →
read back both outputs for the counts (raising when a read target is
missing) → append the log row.  An error carries the world at the point the
exception is raised, since the raised-through side effects persist. -/
def runPipeline (ts note : String) (w : World) : Except (PErr × World) World :=
  if w.excelSheets.length ≠ 1 then .ok w
  else
    match updateObserverAndSpeciesInGpkg w.speciesCsv w.excelSheets w.gpkgFiles with
    | .error e => .error (e, w)
    | .ok files1 =>
      let w1 : World := { w with gpkgFiles := files1 }
      let w2 : World := { w1 with mergedOut := mergeGpkgFiles files1 <|> w1.mergedOut }
      let w3 : World :=
        { w2 with mainOut := removeDuplicatesFromGpkg w2.mergedOut w2.mainOut <|> w2.mainOut }
      match w3.mergedOut with
      | none => .error (.mergedMissing, w3)
      | some mg =>
        match w3.mainOut with
        | none => .error (.finalMissing, w3)
        | some fg =>
          let newLog := updateExcelLog w3.logFile ts w3.gpkgFiles.length
            mg.rows.length fg.rows.length note
          .ok { w3 with logFile := some newLog }

/-! ### The error wrapper (`safe_run_pipeline`, `error_handler.py`) -/

/-- The contents of a timestamped `error_snapshot_*` folder
(`copy_files_to_error_folder`): a copy of the species CSV and of the
main-dataset file when they exist, of every Excel sheet and every `.gpkg`
file of the input directory, plus `error_report.txt` once it is written. -/
structure Snapshot where
  speciesCsv : Option (List SpeciesRec)
  excelSheets : List SheetTable
  gpkgFiles : List GpkgFile
  mainFile : Option GeoDataFrame
  reportSaved : Bool
deriving DecidableEq

/-- The error handler's view of the machine: the pipeline's world, the
number of entries appended to `error_log.txt`, and the snapshot folders. -/
structure HWorld where
  pw : World
  errorLog : Nat
  snapshots : List Snapshot
deriving DecidableEq

/-- `copy_files_to_error_folder`: copy each relevant file as it stands. -/
def copyFilesToErrorFolder (w : World) : Snapshot :=
  { speciesCsv := w.speciesCsv
    excelSheets := w.excelSheets
    gpkgFiles := w.gpkgFiles
    mainFile := w.mainOut
    reportSaved := false }

/-- `safe_run_pipeline`: run the pipeline; on success pass the result
through.  On an exception: copy the files into a fresh snapshot folder,
generate the diagnostic report (whose `diagnose_pipeline_error` already
appends itself to the error log), append the extended report to the error
log as well, save it into the snapshot folder, and re-raise the exception. -/
def safeRunPipeline (ts note : String) (hw : HWorld) : Option PErr × HWorld :=
  match runPipeline ts note hw.pw with
  | .ok w2 => (none, { hw with pw := w2 })
  | .error (e, w2) =>
    let snap := copyFilesToErrorFolder w2
    let snap2 : Snapshot := { snap with reportSaved := true }
    (some e, { pw := w2, errorLog := hw.errorLog + 2, snapshots := hw.snapshots ++ [snap2] })

/-! ### Derived notions used in the statements -/

/-- The identifiers a links cell yields, as the source computes them:
every regex match containing `id=`, sent through `split('id=')[1].split('&')[0]`. -/
def extractIds (cell : String) : List String :=
  (findallLinks cell).filterMap
    (fun l => if hasIdChars l.toList then some (codeFileId l) else none)

/-- The identifiers a links cell yields, in the amended claim's words:
every regex match containing `id=`, taking the portion after the first `id=`
up to the first `&` or the next `id=`, whichever comes first. -/
def specIds (cell : String) : List String :=
  (findallLinks cell).filterMap
    (fun l => if hasIdChars l.toList then some (specFileId l) else none)

/-- The file list an update run produced (empty on an exception). -/
def updResultFiles (r : Except PErr (List GpkgFile)) : List GpkgFile :=
  match r with
  | .ok fs => fs
  | .error _ => []

/-! ### Concrete instances used by counterexamples and witnesses -/

/-- A fresh input row whose key triple also occurs in the main dataset. -/
def c1InputRow : Row :=
  [("geometry", Value.str "POINT(1 2)"), ("species", Value.str "Ardea cinerea"),
   ("observer", Value.str "Alice"), ("remark", Value.str "new upload")]

/-- A main-dataset row with the same (geometry, species, observer) triple. -/
def c1MainRow : Row :=
  [("geometry", Value.str "POINT(1 2)"), ("species", Value.str "Ardea cinerea"),
   ("observer", Value.str "Alice"), ("remark", Value.str "already archived")]

/-- The merged input dataset. -/
def c1Input : GeoDataFrame :=
  ⟨["geometry", "species", "observer", "remark"], [c1InputRow], some "EPSG:4326"⟩

/-- The persistent main dataset already stored at the output path. -/
def c1Main : GeoDataFrame :=
  ⟨["geometry", "species", "observer", "remark"], [c1MainRow], some "EPSG:4326"⟩

/-- A one-entry species reference table. -/
def c4Csv : List SpeciesRec :=
  [⟨"Heron", Value.str "bird", Value.str "Grey Heron"⟩]

/-- A dataset with one species found in the table and one absent from it. -/
def c4Gdf : GeoDataFrame :=
  ⟨["geometry", "species", "observer", "type", "english_name"],
   [[("geometry", Value.str "POINT(0 0)"), ("species", Value.str "Heron"),
     ("observer", Value.str "X"), ("type", Value.str "t1"), ("english_name", Value.str "e1")],
    [("geometry", Value.str "POINT(3 4)"), ("species", Value.str "Sparrow"),
     ("observer", Value.str "X"), ("type", Value.str "t2"), ("english_name", Value.str "e2")]],
   some "EPSG:4326"⟩

/-- The `.gpkg` file holding that dataset. -/
def c4File : GpkgFile := ⟨"f1", [("f1", c4Gdf)]⟩

/-- A spreadsheet matching the file `f1` to the name Alice. -/
def c4Sheet : SheetTable := [⟨some "https://drive.example/open?id=f1&usp=s", some "Alice"⟩]

/-- A layer whose coordinate reference system is not set. -/
def c5Gdf : GeoDataFrame :=
  ⟨["geometry", "species", "observer"],
   [[("geometry", Value.str "POINT(9 9)"), ("species", Value.str "S"),
     ("observer", Value.str "O")]], none⟩

/-- The file holding the CRS-less layer under its own name. -/
def c5File : GpkgFile := ⟨"n1", [("n1", c5Gdf)]⟩

/-- A layer already in EPSG:4326 (witness input). -/
def c5Gdf4326 : GeoDataFrame :=
  ⟨["geometry"], [[("geometry", Value.str "POINT(0 1)")]], some "EPSG:4326"⟩

/-- The file holding the EPSG:4326 layer. -/
def c5File4326 : GpkgFile := ⟨"w1", [("w1", c5Gdf4326)]⟩

/-- A record carrying a date field. -/
def c6Row : Row := [("geometry", Value.str "POINT(5 5)"), ("date", Value.str "2024-05-01")]

/-- A dataset with a date column and no year/month/day columns. -/
def c6Gdf : GeoDataFrame := ⟨["geometry", "date"], [c6Row], some "EPSG:4326"⟩

/-- The file holding the dated dataset. -/
def c6File : GpkgFile := ⟨"d1", [("d1", c6Gdf)]⟩

/-- A share link in which another `id=` occurs between the first `id=` and
the next ampersand. -/
def c3Link : String := "https://a?id=bid=c&d"

/-- A spreadsheet row carrying that link. -/
def c3Row : SheetRow := ⟨some c3Link, some "Alice"⟩

/-- A spreadsheet row for the C3 witness. -/
def w3Row : SheetRow := ⟨some "https://x.example/f?id=f1&u=2", some " Alice "⟩

/-- A dataset with an observer column, for the C3 witness. -/
def w3Gdf : GeoDataFrame :=
  ⟨["geometry", "observer"],
   [[("geometry", Value.str "POINT(7 7)"), ("observer", Value.str "old")]], some "EPSG:4326"⟩

/-- The file named like the extracted identifier, for the C3 witness. -/
def w3File : GpkgFile := ⟨"f1", [("f1", w3Gdf)]⟩

/-- A species CSV with a duplicated key: building the mapping raises. -/
def dupCsv : List SpeciesRec :=
  [⟨"Heron", Value.str "bird", Value.str "Grey Heron"⟩,
   ⟨"Heron", Value.str "bird", Value.str "Gray Heron"⟩]

/-- A world on which the pipeline raises (duplicate species keys), for C8. -/
def w8World : World :=
  { speciesCsv := some dupCsv
    excelSheets := [[]]
    gpkgFiles := []
    mergedOut := none
    mainOut := none
    logFile := none }

/-- The handler state around that world. -/
def w8H : HWorld := { pw := w8World, errorLog := 0, snapshots := [] }

/-- A world with no Excel sheet at all, for the C9 witness. -/
def w9World : World :=
  { speciesCsv := some []
    excelSheets := []
    gpkgFiles := [c4File]
    mergedOut := none
    mainOut := none
    logFile := none }

/-- A file whose basename has no entry in an empty spreadsheet, for C10. -/
def w10File : GpkgFile := ⟨"unmatched", [("unmatched", c5Gdf4326)]⟩

/-! ### Lemmas: the identifier extraction -/

lemma startsWithId_true {cs : List Char} (h : startsWithId cs = true) :
    ∃ t, cs = 'i' :: 'd' :: '=' :: t := by
  match cs with
  | [] => simp [startsWithId] at h
  | [a] => simp [startsWithId] at h
  | [a, b] => simp [startsWithId] at h
  | a :: b :: c :: t =>
    simp only [startsWithId, Bool.and_eq_true, decide_eq_true_eq] at h
    exact ⟨t, by rw [h.1.1, h.1.2, h.2]⟩

lemma pySplitIdAux_irrel (f1 : Nat) :
    ∀ (f2 : Nat) (cs : List Char), cs.length ≤ f1 → cs.length ≤ f2 →
      pySplitIdAux f1 cs = pySplitIdAux f2 cs := by
  induction f1 with
  | zero =>
    intro f2 cs h1 _
    have : cs = [] := List.length_eq_zero.mp (Nat.le_zero.mp h1)
    subst this
    cases f2 <;> rfl
  | succ n ih =>
    intro f2 cs h1 h2
    cases cs with
    | nil => cases f2 <;> rfl
    | cons c rest =>
      cases f2 with
      | zero => simp at h2
      | succ m =>
        rw [pySplitIdAux, pySplitIdAux]
        have hr : rest.length ≤ n := by simpa using h1
        have hrm : rest.length ≤ m := by simpa using h2
        have hd : (rest.drop 2).length ≤ n := le_trans (by simp) hr
        have hdm : (rest.drop 2).length ≤ m := le_trans (by simp) hrm
        by_cases h : startsWithId (c :: rest) = true
        · rw [if_pos h, if_pos h, ih m (rest.drop 2) hd hdm]
        · rw [if_neg h, if_neg h, ih m rest hr hrm]

lemma pySplitId_cons (c : Char) (rest : List Char) :
    pySplitId (c :: rest)
      = if startsWithId (c :: rest) then [] :: pySplitId (rest.drop 2)
        else
          match pySplitId rest with
          | s :: ss => (c :: s) :: ss
          | [] => [[c]] := by
  show pySplitIdAux (c :: rest).length (c :: rest) = _
  rw [List.length_cons, pySplitIdAux]
  by_cases h : startsWithId (c :: rest) = true
  · rw [if_pos h, if_pos h]
    rw [pySplitIdAux_irrel rest.length (rest.drop 2).length (rest.drop 2)
      (le_trans (by simp) (le_refl _)) (le_refl _)]
    rfl
  · rw [if_neg h, if_neg h]
    rfl

lemma pySplitId_ne_nil (cs : List Char) : pySplitId cs ≠ [] := by
  cases cs with
  | nil => simp [pySplitId, pySplitIdAux]
  | cons c rest =>
    rw [pySplitId_cons]
    split
    · simp
    · split <;> simp

lemma head_pySplitId_takeWhile (cs : List Char) :
    ((pySplitId cs).headD []).takeWhile (fun c => c ≠ '&') = cutIdChars cs := by
  induction cs with
  | nil => simp [pySplitId, pySplitIdAux, cutIdChars]
  | cons c rest ih =>
    by_cases hid : startsWithId (c :: rest) = true
    · obtain ⟨t, ht⟩ := startsWithId_true hid
      have hc : c = 'i' := by injection ht
      subst hc
      rw [pySplitId_cons, if_pos hid, cutIdChars, if_neg (by decide), if_pos hid]
      simp
    · rw [pySplitId_cons, if_neg hid, cutIdChars]
      rcases hps : pySplitId rest with _ | ⟨s, ss⟩
      · exact absurd hps (pySplitId_ne_nil rest)
      · rw [hps] at ih
        simp only [List.headD_cons] at ih
        simp only [List.headD_cons, List.takeWhile_cons]
        by_cases hamp : c = '&'
        · subst hamp
          simp
        · have hpc : (fun x => decide (x ≠ '&')) c = true := by simp [hamp]
          rw [if_pos hpc, if_neg hamp, if_neg hid, ih]

lemma secondSeg_pySplitId (cs : List Char) :
    (((pySplitId cs).drop 1).headD []).takeWhile (fun c => c ≠ '&')
      = cutIdChars (afterFirstIdChars cs) := by
  induction cs with
  | nil => simp [pySplitId, pySplitIdAux, afterFirstIdChars, cutIdChars]
  | cons c rest ih =>
    by_cases hid : startsWithId (c :: rest) = true
    · rw [pySplitId_cons, if_pos hid, afterFirstIdChars, if_pos hid]
      simp only [List.drop_succ_cons, List.drop_zero]
      exact head_pySplitId_takeWhile (rest.drop 2)
    · rw [pySplitId_cons, if_neg hid, afterFirstIdChars, if_neg hid]
      rcases hps : pySplitId rest with _ | ⟨s, ss⟩
      · exact absurd hps (pySplitId_ne_nil rest)
      · rw [← ih, hps]
        simp

lemma codeFileId_eq_specFileId (link : String) : codeFileId link = specFileId link := by
  unfold codeFileId specFileId
  rw [← secondSeg_pySplitId]
  rcases hps : pySplitId link.toList with _ | ⟨x, _ | ⟨y, t⟩⟩
  · exact absurd hps (pySplitId_ne_nil link.toList)
  · simp
  · simp

/-! ### Lemmas: the id_to_name dictionary -/

lemma lookup_map_replace_ne {β : Type} (m : List (String × β)) (k : String) (v : β) (k' : String) (hne : k' ≠ k) :
    (m.map (fun p => if p.fst = k then (k, v) else p)).lookup k' = m.lookup k' := by
  induction m with
  | nil => rfl
  | cons a t ih =>
    obtain ⟨ak, av⟩ := a
    simp only [List.map_cons]
    by_cases hak : ak = k
    · subst hak
      have hb : (k' == ak) = false := beq_eq_false_iff_ne.mpr hne
      rw [if_pos rfl]
      simp only [List.lookup_cons, hb]
      exact ih
    · rw [if_neg hak]
      by_cases hka : k' = ak
      · subst hka
        simp [List.lookup_cons]
      · have hb : (k' == ak) = false := beq_eq_false_iff_ne.mpr hka
        simp only [List.lookup_cons, hb]
        exact ih

lemma lookup_map_replace_self {β : Type} (m : List (String × β)) (k : String) (v : β)
    (hany : m.any (fun p => p.fst = k) = true) :
    (m.map (fun p => if p.fst = k then (k, v) else p)).lookup k = some v := by
  induction m with
  | nil => simp at hany
  | cons a t ih =>
    obtain ⟨ak, av⟩ := a
    simp only [List.any_cons, Bool.or_eq_true, decide_eq_true_eq] at hany
    simp only [List.map_cons]
    by_cases hak : ak = k
    · subst hak
      rw [if_pos rfl]
      simp [List.lookup_cons]
    · rw [if_neg hak]
      have hb : (k == ak) = false := beq_eq_false_iff_ne.mpr (Ne.symm hak)
      simp only [List.lookup_cons, hb]
      exact ih (hany.resolve_left hak)

lemma lookup_append_right_single {β : Type} (m : List (String × β)) (k : String) (v : β)
    (hnone : m.any (fun p => p.fst = k) = false) :
    (m ++ [(k, v)]).lookup k = some v := by
  induction m with
  | nil => simp [List.lookup_cons]
  | cons a t ih =>
    obtain ⟨ak, av⟩ := a
    simp only [List.any_cons, Bool.or_eq_false_iff, decide_eq_false_iff_not] at hnone
    have hb : (k == ak) = false := beq_eq_false_iff_ne.mpr (Ne.symm hnone.1)
    simp only [List.cons_append, List.lookup_cons, hb]
    exact ih hnone.2

lemma lookup_append_left_ne {β : Type} (m : List (String × β)) (k : String) (v : β) (k' : String) (hk : k' ≠ k) :
    (m ++ [(k, v)]).lookup k' = m.lookup k' := by
  induction m with
  | nil =>
    have hb : (k' == k) = false := beq_eq_false_iff_ne.mpr hk
    simp [List.lookup_cons, hb]
  | cons a t ih =>
    obtain ⟨ak, av⟩ := a
    by_cases hka : k' = ak
    · subst hka
      simp [List.lookup_cons]
    · have hb : (k' == ak) = false := beq_eq_false_iff_ne.mpr hka
      simp only [List.cons_append, List.lookup_cons, hb]
      exact ih

lemma dictInsert_lookup (m : List (String × String)) (k v k' : String) :
    (dictInsert m k v).lookup k' = if k' = k then some v else m.lookup k' := by
  unfold dictInsert
  by_cases hany : m.any (fun p => p.fst = k) = true
  · rw [if_pos hany]
    by_cases hk : k' = k
    · rw [if_pos hk, hk]
      exact lookup_map_replace_self m k v hany
    · rw [if_neg hk]
      exact lookup_map_replace_ne m k v k' hk
  · rw [if_neg hany]
    by_cases hk : k' = k
    · rw [if_pos hk, hk]
      exact lookup_append_right_single m k v (eq_false_of_ne_true hany)
    · rw [if_neg hk]
      exact lookup_append_left_ne m k v k' hk

lemma foldl_ins_lookup (links : List String) (m : List (String × String)) (nm i : String) :
    (links.foldl
        (fun m link =>
          if hasIdChars link.toList then dictInsert m (codeFileId link) nm else m) m).lookup i
      = if i ∈ (links.filterMap
            (fun l => if hasIdChars l.toList then some (codeFileId l) else none))
        then some nm else m.lookup i := by
  induction links generalizing m with
  | nil => simp
  | cons l ls ih =>
    rw [List.foldl_cons, List.filterMap_cons]
    by_cases hl : hasIdChars l.toList = true
    · simp only [hl, if_true]
      rw [ih]
      by_cases hmem : i ∈ ls.filterMap
          (fun l => if hasIdChars l.toList then some (codeFileId l) else none)
      · rw [if_pos hmem, if_pos (List.mem_cons_of_mem _ hmem)]
      · rw [if_neg hmem, dictInsert_lookup]
        by_cases hie : i = codeFileId l
        · rw [if_pos hie, if_pos (hie ▸ List.mem_cons_self _ _)]
        · rw [if_neg hie,
            if_neg (fun hc => (List.mem_cons.mp hc).elim hie hmem)]
    · have hl' : hasIdChars l.toList = false := eq_false_of_ne_true hl
      simp only [hl', Bool.false_eq_true, if_false]
      exact ih m

lemma rowStep_none {r : SheetRow} (m : List (String × String)) (h : r.links = none) :
    rowStep m r = m := by
  simp [rowStep, h]

lemma rowStep_some {r : SheetRow} {cell : String} (m : List (String × String)) (i : String)
    (h : r.links = some cell) :
    (rowStep m r).lookup i
      = if i ∈ extractIds cell then some (pyStrip (pyStr r.name)) else m.lookup i := by
  simp only [rowStep, h]
  exact foldl_ins_lookup (findallLinks cell) m (pyStrip (pyStr r.name)) i

lemma foldl_rowStep_no_extract (rows : List SheetRow) (m : List (String × String)) (i : String)
    (h : ∀ r ∈ rows, ∀ cell, r.links = some cell → i ∉ extractIds cell) :
    (rows.foldl rowStep m).lookup i = m.lookup i := by
  induction rows generalizing m with
  | nil => rfl
  | cons r rs ih =>
    rw [List.foldl_cons]
    rw [ih (rowStep m r) (fun r' hr' => h r' (List.mem_cons_of_mem _ hr'))]
    cases hl : r.links with
    | none => rw [rowStep_none m hl]
    | some cell =>
      rw [rowStep_some m i hl, if_neg (h r (List.mem_cons_self _ _) cell hl)]

lemma buildIdToName_last (pre post : List SheetRow) (r : SheetRow) (cell i : String)
    (hlinks : r.links = some cell) (hi : i ∈ extractIds cell)
    (hpost : ∀ r' ∈ post, ∀ cell', r'.links = some cell' → i ∉ extractIds cell') :
    (buildIdToName (pre ++ r :: post)).lookup i = some (pyStrip (pyStr r.name)) := by
  unfold buildIdToName
  rw [List.foldl_append, List.foldl_cons]
  rw [foldl_rowStep_no_extract post _ i hpost]
  rw [rowStep_some _ i hlinks, if_pos hi]

lemma extractIds_eq_specIds (cell : String) : extractIds cell = specIds cell := by
  unfold extractIds specIds
  congr 1
  funext l
  rw [codeFileId_eq_specFileId]

/-! ### Lemmas: rows and columns -/

lemma setAttr_lookup (r : Row) (c : String) (v : Value) (c' : String) :
    (setAttr r c v).lookup c' = if c' = c then some v else r.lookup c' := by
  unfold setAttr
  by_cases hany : r.any (fun p => p.fst = c) = true
  · rw [if_pos hany]
    by_cases hc : c' = c
    · rw [if_pos hc, hc]
      exact lookup_map_replace_self r c v hany
    · rw [if_neg hc]
      exact lookup_map_replace_ne r c v c' hc
  · rw [if_neg hany]
    by_cases hc : c' = c
    · rw [if_pos hc, hc]
      exact lookup_append_right_single r c v (eq_false_of_ne_true hany)
    · rw [if_neg hc]
      exact lookup_append_left_ne r c v c' hc

lemma attr_setAttr_self (r : Row) (c : String) (v : Value) :
    attr (setAttr r c v) c = v := by
  unfold attr
  rw [setAttr_lookup, if_pos rfl]
  rfl

lemma attr_setAttr_ne (r : Row) (c : String) (v : Value) (c' : String) (h : c' ≠ c) :
    attr (setAttr r c v) c' = attr r c' := by
  unfold attr
  rw [setAttr_lookup, if_neg h]

lemma getCol_setColConst_self (g : GeoDataFrame) (c : String) (v : Value) :
    getCol (setColConst g c v) c = List.replicate g.rows.length v := by
  unfold getCol setColConst
  simp only [List.map_map]
  rw [show ((fun r => attr r c) ∘ fun r => setAttr r c v)
        = fun _ => v from funext fun r => attr_setAttr_self r c v]
  exact List.map_const' g.rows v

lemma zipWith_setAttr_map_attr (rows : List Row) (vs : List Value) (c c' : String)
    (hne : c' ≠ c) (hlen : vs.length = rows.length) :
    (List.zipWith (fun r v => setAttr r c v) rows vs).map (fun r => attr r c')
      = rows.map (fun r => attr r c') := by
  induction rows generalizing vs with
  | nil => simp
  | cons r rs ih =>
    cases vs with
    | nil => simp at hlen
    | cons v vt =>
      simp only [List.zipWith_cons_cons, List.map_cons]
      rw [attr_setAttr_ne r c v c' hne, ih vt (by simpa using hlen)]

lemma getCol_setColVals_ne (g : GeoDataFrame) (c : String) (vs : List Value) (c' : String)
    (hne : c' ≠ c) (hlen : vs.length = g.rows.length) :
    getCol (setColVals g c vs) c' = getCol g c' := by
  unfold getCol setColVals
  exact zipWith_setAttr_map_attr g.rows vs c c' hne hlen

lemma rows_length_setColVals (g : GeoDataFrame) (c : String) (vs : List Value)
    (hlen : vs.length = g.rows.length) :
    (setColVals g c vs).rows.length = g.rows.length := by
  simp [setColVals, List.length_zipWith, hlen]

lemma getCol_updTypeCol (m : List (String × SpeciesRec)) (g : GeoDataFrame) (c' : String)
    (hne : c' ≠ "type") :
    getCol (updTypeCol m g) c' = getCol g c' := by
  unfold updTypeCol
  exact getCol_setColVals_ne g "type" _ c' hne (by simp)

lemma rows_length_updTypeCol (m : List (String × SpeciesRec)) (g : GeoDataFrame) :
    (updTypeCol m g).rows.length = g.rows.length := by
  unfold updTypeCol
  exact rows_length_setColVals g "type" _ (by simp)

lemma getCol_updEnglishCol (m : List (String × SpeciesRec)) (g : GeoDataFrame) (c' : String)
    (hne : c' ≠ "english_name") :
    getCol (updEnglishCol m g) c' = getCol g c' := by
  unfold updEnglishCol
  exact getCol_setColVals_ne g "english_name" _ c' hne (by simp)

lemma rows_length_updEnglishCol (m : List (String × SpeciesRec)) (g : GeoDataFrame) :
    (updEnglishCol m g).rows.length = g.rows.length := by
  unfold updEnglishCol
  exact rows_length_setColVals g "english_name" _ (by simp)

lemma getCol_updGdfSpecies_observer (m : List (String × SpeciesRec)) (g : GeoDataFrame) :
    getCol (updGdfSpecies m g) "observer" = getCol g "observer" := by
  unfold updGdfSpecies
  by_cases hs : "species" ∈ g.cols
  · rw [if_pos hs, getCol_updEnglishCol _ _ _ (by decide), getCol_updTypeCol _ _ _ (by decide)]
  · rw [if_neg hs]

lemma updFile_observer (m : List (String × String)) (sm : List (String × SpeciesRec))
    (f : GpkgFile) (g : GeoDataFrame) (nm : String)
    (hm : m.lookup f.baseName = some nm)
    (hr : readFirstLayer f = some g)
    (hobs : "observer" ∈ g.cols) :
    (updFile m sm f).layers.map (fun p => (p.fst, getCol p.snd "observer"))
      = [(f.baseName, List.replicate g.rows.length (Value.str nm))] := by
  unfold updFile
  rw [hm, hr]
  simp only [List.map_cons, List.map_nil]
  rw [if_pos hobs, getCol_updGdfSpecies_observer, getCol_setColConst_self]

/-! ### Lemmas: merging and deduplication -/

lemma mem_mergeContrib {files : List GpkgFile} {g : GeoDataFrame}
    (h : g ∈ mergeContrib files) :
    ∃ f ∈ files, ∃ g0, f.layers.lookup f.baseName = some g0 ∧ g = normLayer g0 := by
  unfold mergeContrib at h
  rw [List.mem_filterMap] at h
  obtain ⟨f, hf, hfg⟩ := h
  cases hl : f.layers.lookup f.baseName with
  | none => rw [hl] at hfg; simp at hfg
  | some g0 =>
    rw [hl] at hfg
    simp only [Option.some.injEq] at hfg
    exact ⟨f, hf, g0, hl, hfg.symm⟩

lemma normLayer_crs (g0 : GeoDataFrame) :
    (normLayer g0).crs = none ∨ (normLayer g0).crs = some "EPSG:4326" := by
  unfold normLayer
  by_cases h : g0.crs ≠ none ∧ g0.crs ≠ some "EPSG:4326"
  · rw [if_pos h]
    exact Or.inr rfl
  · rw [if_neg h]
    push_neg at h
    cases hc : g0.crs with
    | none => exact Or.inl rfl
    | some c =>
      right
      have h2 := h (by rw [hc]; exact Option.some_ne_none c)
      rw [hc] at h2
      exact h2

lemma normLayer_attr (g : GeoDataFrame) (c : String) (hc : c ≠ "geometry") :
    (normLayer g).rows.map (fun r => attr r c) = g.rows.map (fun r => attr r c) := by
  unfold normLayer
  by_cases h : g.crs ≠ none ∧ g.crs ≠ some "EPSG:4326"
  · rw [if_pos h]
    unfold toCrs
    simp only [List.map_map]
    refine List.map_congr_left fun r _ => ?_
    exact attr_setAttr_ne r "geometry" _ c hc
  · rw [if_neg h]

lemma mergeGpkgFiles_rows {files : List GpkgFile} {m : GeoDataFrame}
    (h : mergeGpkgFiles files = some m) :
    m.rows = ((mergeContrib files).map (fun g => g.rows)).flatten := by
  unfold mergeGpkgFiles at h
  by_cases he : files.isEmpty = true
  · rw [if_pos he] at h
    exact absurd h (by simp)
  · rw [if_neg he] at h
    by_cases hc : (mergeContrib files).isEmpty = true
    · rw [if_pos hc] at h
      exact absurd h (by simp)
    · rw [if_neg hc] at h
      simp only [Option.some.injEq] at h
      rw [← h]

lemma dedupAux_sound (l : List Row) (seen : List (Value × Value × Value)) :
    List.Pairwise (fun a b => tripleOf a ≠ tripleOf b) (dedupAux seen l)
    ∧ ∀ r ∈ dedupAux seen l, tripleOf r ∉ seen := by
  induction l generalizing seen with
  | nil => exact ⟨List.Pairwise.nil, by simp [dedupAux]⟩
  | cons r rs ih =>
    by_cases hs : tripleOf r ∈ seen
    · rw [dedupAux, if_pos hs]
      exact ih seen
    · rw [dedupAux, if_neg hs]
      obtain ⟨hpw, hnot⟩ := ih (tripleOf r :: seen)
      refine ⟨List.Pairwise.cons ?_ hpw, ?_⟩
      · intro b hb
        have := hnot b hb
        intro hab
        exact this (by rw [← hab]; exact List.mem_cons_self _ _)
      · intro x hx
        rcases List.mem_cons.mp hx with hx1 | hx2
        · rw [hx1]; exact hs
        · exact fun hff => hnot x hx2 (List.mem_cons_of_mem _ hff)

/-! ### Claim theorems -/

/-- C1: counter-evidence evaluation.  The input dataset holds one row whose
(geometry, species, observer) triple already occurs in the persistent main
dataset stored at the output path.  The claim says the saved dataset then
consists of the previous main rows plus no input row; the code instead saves
exactly the duplicate input row and drops every main row, because the
combined frame built from the main dataset is never used afterwards. -/
theorem remove_duplicates_ignores_main_dataset :
    (removeDuplicatesFromGpkg (some c1Input) (some c1Main)).map GeoDataFrame.rows
      = some [c1InputRow]
    ∧ tripleOf c1InputRow = tripleOf c1MainRow
    ∧ c1MainRow ∉ ([c1InputRow] : List Row) := by decide

/-- C2: whenever `remove_duplicates_from_gpkg` returns successfully, the
dataset it saved contains no two rows with equal
(geometry, species, observer) triples. -/
theorem saved_dataset_triples_unique (inp existingOut : Option GeoDataFrame)
    (out : GeoDataFrame)
    (h : removeDuplicatesFromGpkg inp existingOut = some out) :
    List.Pairwise (fun a b => tripleOf a ≠ tripleOf b) out.rows := by
  cases inp with
  | none => exact absurd h (by simp [removeDuplicatesFromGpkg])
  | some gdf =>
    simp only [removeDuplicatesFromGpkg] at h
    split at h
    · injection h with h2
      rw [← h2]
      exact (dedupAux_sound gdf.rows []).1
    · exact absurd h (by simp)

/-- C2 witness: a concrete successful run of the deduplication. -/
theorem saved_dataset_triples_unique_witness :
    removeDuplicatesFromGpkg (some c1Input) none = some (dropDupsTriple c1Input)
    ∧ List.Pairwise (fun a b => tripleOf a ≠ tripleOf b) (dropDupsTriple c1Input).rows :=
  ⟨by decide, saved_dataset_triples_unique (some c1Input) none _ (by decide)⟩

/-- C3 counterexample: on a link in which a second `id=` occurs between the
first `id=` and the next ampersand, the identifier the claim prescribes (the
substring between `id=` and the next `&`, here `bid=c`) is not the one the
code maps: the code maps `b`, and the prescribed identifier is absent from
the built mapping. -/
theorem share_link_id_counterexample :
    claimFileId c3Link = "bid=c"
    ∧ buildIdToName [c3Row] = [("b", "Alice")]
    ∧ (buildIdToName [c3Row]).lookup (claimFileId c3Link) = none
    ∧ codeFileId c3Link ≠ claimFileId c3Link := by decide

/-- C3 (amended): the identifier the code computes from a link equals the
portion after the first `id=` truncated at the first `&` or the next `id=`,
whichever comes first; for a row with non-null links and name cells whose
extraction yields identifier `i`, with no later row also yielding `i`, the
built mapping sends `i` to that row's stripped name; and every `.gpkg` file
whose basename is `i` and whose dataset has an `observer` column is rewritten
as a single layer named `i` with every observer value set to that name. -/
theorem observer_update_follows_sheet
    (pre post : List SheetRow) (r : SheetRow) (cell nm i : String)
    (hlinks : r.links = some cell) (hname : r.name = some nm)
    (hi : i ∈ specIds cell)
    (hpost : ∀ r' ∈ post, ∀ cell', r'.links = some cell' → i ∉ specIds cell') :
    (∀ link : String, codeFileId link = specFileId link)
    ∧ (buildIdToName (pre ++ r :: post)).lookup i = some (pyStrip nm)
    ∧ ∀ (sm : List (String × SpeciesRec)) (f : GpkgFile) (g : GeoDataFrame),
        f.baseName = i → readFirstLayer f = some g → "observer" ∈ g.cols →
        (updFile (buildIdToName (pre ++ r :: post)) sm f).layers.map
            (fun p => (p.fst, getCol p.snd "observer"))
          = [(i, List.replicate g.rows.length (Value.str (pyStrip nm)))] := by
  have hi' : i ∈ extractIds cell := by
    rw [extractIds_eq_specIds]
    exact hi
  have hpost' : ∀ r' ∈ post, ∀ cell', r'.links = some cell' → i ∉ extractIds cell' := by
    intro r' hr' cell' hc
    rw [extractIds_eq_specIds]
    exact hpost r' hr' cell' hc
  have hmain := buildIdToName_last pre post r cell i hlinks hi' hpost'
  rw [hname] at hmain
  simp only [pyStr] at hmain
  refine ⟨fun link => codeFileId_eq_specFileId link, hmain, ?_⟩
  intro sm f g hbase hr hobs
  subst hbase
  exact updFile_observer _ sm f g (pyStrip nm) hmain hr hobs

/-- C3 witness: a one-row sheet mapping the file `f1` to the stripped name
Alice, applied to a file named `f1` with an observer column. -/
theorem observer_update_follows_sheet_witness :
    w3Row.links = some "https://x.example/f?id=f1&u=2"
    ∧ w3Row.name = some " Alice "
    ∧ "f1" ∈ specIds "https://x.example/f?id=f1&u=2"
    ∧ (buildIdToName ([] ++ w3Row :: [])).lookup "f1" = some (pyStrip " Alice ")
    ∧ (updFile (buildIdToName ([] ++ w3Row :: [])) [] w3File).layers.map
        (fun p => (p.fst, getCol p.snd "observer"))
      = [("f1", List.replicate w3Gdf.rows.length (Value.str (pyStrip " Alice ")))] := by
  refine ⟨rfl, rfl, by decide, ?_, ?_⟩
  · exact (observer_update_follows_sheet [] [] w3Row _ " Alice " "f1" rfl rfl
      (by decide) (by simp)).2.1
  · exact (observer_update_follows_sheet [] [] w3Row _ " Alice " "f1" rfl rfl
      (by decide) (by simp)).2.2 [] w3File w3Gdf rfl rfl (by decide)

/-- C4: evaluation at the failing input.  The species CSV knows `Heron` but
not `Sparrow`.  The Heron record's `type`/`english_name` are correctly set
from the table, but the Sparrow record does not keep its original values
`t2`/`e2`: its cells receive the entire original column as a `Series`
object, because `species_mapping.get(sp, {}).get('type', gdf.get('type'))`
falls back to the whole column, not to the record's own cell. -/
theorem species_fallback_stores_whole_column :
    (updResultFiles (updateObserverAndSpeciesInGpkg (some c4Csv) [c4Sheet] [c4File])).map
        (fun f => f.layers.map (fun p => (getCol p.snd "type", getCol p.snd "english_name")))
      = [[([Value.str "bird", Value.series [Value.str "t1", Value.str "t2"]],
           [Value.str "Grey Heron", Value.series [Value.str "e1", Value.str "e2"]])]]
    ∧ Value.series [Value.str "t1", Value.str "t2"] ≠ Value.str "t2"
    ∧ Value.series [Value.str "e1", Value.str "e2"] ≠ Value.str "e2" := by decide

/-- C5 counterexample: a successfully read layer with no CRS set contributes
to the merged output without being in EPSG:4326. -/
theorem crsless_layer_contributes_unreprojected :
    (mergeContrib [c5File]).map GeoDataFrame.crs = [none]
    ∧ (mergeGpkgFiles [c5File]).isSome = true
    ∧ (mergeContrib [c5File]).all (fun g => g.crs == some "EPSG:4326") = false := by decide

/-- C5 (amended): every dataset contributing to the merged output either has
no CRS set (and was concatenated unreprojected) or is in EPSG:4326; layers
whose CRS is set and differs from EPSG:4326 are reprojected before
concatenation. -/
theorem merge_contrib_crs_amended (files : List GpkgFile) (g : GeoDataFrame)
    (h : g ∈ mergeContrib files) :
    g.crs = none ∨ g.crs = some "EPSG:4326" := by
  obtain ⟨f, hf, g0, hl, rfl⟩ := mem_mergeContrib h
  exact normLayer_crs g0

/-- C5 witness: a concrete contributing layer. -/
theorem merge_contrib_crs_amended_witness :
    c5Gdf4326 ∈ mergeContrib [c5File4326]
    ∧ (c5Gdf4326.crs = none ∨ c5Gdf4326.crs = some "EPSG:4326") :=
  ⟨by decide, merge_contrib_crs_amended [c5File4326] c5Gdf4326 (by decide)⟩

/-- C6 counterexample: a record with a date field passes through the merge
unchanged; no year, month or day field is derived anywhere. -/
theorem merge_adds_no_date_fields :
    mergeGpkgFiles [c6File]
      = some (⟨["geometry", "date"], [c6Row], some "EPSG:4326"⟩ : GeoDataFrame)
    ∧ "year" ∉ (["geometry", "date"] : List String)
    ∧ "month" ∉ (["geometry", "date"] : List String)
    ∧ "day" ∉ (["geometry", "date"] : List String)
    ∧ attr c6Row "date" = Value.str "2024-05-01"
    ∧ attr c6Row "year" = Value.null := by decide

/-- C6 (amended): the merged rows are exactly the concatenation of the
contributing layers' rows, and the per-layer normalisation changes no field
other than geometry: no year, month or day fields are derived from the date
field. -/
theorem merge_rows_pass_through (files : List GpkgFile) (m : GeoDataFrame)
    (h : mergeGpkgFiles files = some m) :
    m.rows = ((mergeContrib files).map (fun g => g.rows)).flatten
    ∧ ∀ (g : GeoDataFrame) (c : String), c ≠ "geometry" →
        (normLayer g).rows.map (fun r => attr r c) = g.rows.map (fun r => attr r c) :=
  ⟨mergeGpkgFiles_rows h, fun g c hc => normLayer_attr g c hc⟩

/-- C6 witness: a concrete merge run. -/
theorem merge_rows_pass_through_witness :
    mergeGpkgFiles [c6File]
      = some (⟨["geometry", "date"], [c6Row], some "EPSG:4326"⟩ : GeoDataFrame)
    ∧ ((⟨["geometry", "date"], [c6Row], some "EPSG:4326"⟩ : GeoDataFrame).rows
        = ((mergeContrib [c6File]).map (fun g => g.rows)).flatten
      ∧ ∀ (g : GeoDataFrame) (c : String), c ≠ "geometry" →
          (normLayer g).rows.map (fun r => attr r c) = g.rows.map (fun r => attr r c)) :=
  ⟨by decide, merge_rows_pass_through [c6File] _ (by decide)⟩

/-- C7: every call to `update_excel_log` appends exactly one summary row,
and when a log already exists every previous row is preserved unchanged, in
its original order, before the new row. -/
theorem log_appends_exactly_one_row (existing : Option (List LogRow)) (ts : String)
    (fp tm fs : Nat) (note : String) :
    (updateExcelLog existing ts fp tm fs note).length = (existing.getD []).length + 1
    ∧ (updateExcelLog existing ts fp tm fs note).take (existing.getD []).length
        = existing.getD []
    ∧ (updateExcelLog existing ts fp tm fs note).drop (existing.getD []).length
        = [⟨ts, fp, tm, fs, note⟩] := by
  cases existing with
  | none => simp [updateExcelLog]
  | some rows =>
    refine ⟨by simp [updateExcelLog], ?_, ?_⟩
    · simp [updateExcelLog]
    · simp [updateExcelLog]

/-- C8: whenever the pipeline raises, the wrapper copies the species CSV and
main dataset (as they stand, when present), every Excel sheet and every
`.gpkg` file of the input directory into a fresh snapshot folder together
with the error report, appends to the error log, and re-raises the same
exception. -/
theorem safe_run_snapshots_and_reraises (ts note : String) (hw : HWorld) (e : PErr)
    (w2 : World) (h : runPipeline ts note hw.pw = .error (e, w2)) :
    (safeRunPipeline ts note hw).fst = some e
    ∧ (safeRunPipeline ts note hw).snd.snapshots
        = hw.snapshots ++
          [{ speciesCsv := w2.speciesCsv, excelSheets := w2.excelSheets,
             gpkgFiles := w2.gpkgFiles, mainFile := w2.mainOut, reportSaved := true }]
    ∧ (safeRunPipeline ts note hw).snd.errorLog = hw.errorLog + 2
    ∧ (safeRunPipeline ts note hw).snd.pw = w2 := by
  unfold safeRunPipeline
  rw [h]
  exact ⟨rfl, rfl, rfl, rfl⟩

/-- C8 witness: a pipeline run that raises on a species CSV with duplicate
keys. -/
theorem safe_run_snapshots_witness :
    runPipeline "t" "n" w8H.pw = .error (PErr.dupSpecies, w8World)
    ∧ ((safeRunPipeline "t" "n" w8H).fst = some PErr.dupSpecies
      ∧ (safeRunPipeline "t" "n" w8H).snd.snapshots
          = w8H.snapshots ++
            [{ speciesCsv := w8World.speciesCsv, excelSheets := w8World.excelSheets,
               gpkgFiles := w8World.gpkgFiles, mainFile := w8World.mainOut,
               reportSaved := true }]
      ∧ (safeRunPipeline "t" "n" w8H).snd.errorLog = w8H.errorLog + 2
      ∧ (safeRunPipeline "t" "n" w8H).snd.pw = w8World) :=
  ⟨rfl, safe_run_snapshots_and_reraises "t" "n" w8H PErr.dupSpecies w8World rfl⟩

/-- C9: the pipeline proceeds only when exactly one Excel sheet is present;
with zero or several sheets it returns at once and the world is untouched. -/
theorem pipeline_requires_single_excel (ts note : String) (w : World)
    (h : w.excelSheets.length ≠ 1) :
    runPipeline ts note w = .ok w := by
  unfold runPipeline
  rw [if_pos h]

/-- C9 witness: a directory with no Excel sheet. -/
theorem pipeline_requires_single_excel_witness :
    w9World.excelSheets.length ≠ 1 ∧ runPipeline "t" "n" w9World = .ok w9World :=
  ⟨by decide, pipeline_requires_single_excel "t" "n" w9World (by decide)⟩

/-- C10: a `.gpkg` file whose basename has no entry in the mapping built
from the spreadsheet is left completely unchanged by the update step. -/
theorem unmapped_gpkg_files_untouched
    (csv : List SpeciesRec) (sheet : SheetTable) (rest : List SheetTable)
    (files files' : List GpkgFile)
    (h : updateObserverAndSpeciesInGpkg (some csv) (sheet :: rest) files = .ok files')
    (i : Nat) (hi : i < files.length)
    (hun : (buildIdToName sheet).lookup files[i].baseName = none) :
    files'[i]? = some files[i] := by
  simp only [updateObserverAndSpeciesInGpkg, List.head?_cons] at h
  cases hsm : speciesMappingOf csv with
  | none =>
    rw [hsm] at h
    exact absurd h (by simp)
  | some sm =>
    rw [hsm] at h
    simp only [Except.ok.injEq] at h
    subst h
    rw [List.getElem?_map, List.getElem?_eq_getElem hi]
    simp only [Option.map_some']
    unfold updFile
    rw [hun]

/-- C10 witness: a file not mentioned by the (empty) spreadsheet survives the
update verbatim. -/
theorem unmapped_gpkg_files_untouched_witness :
    updateObserverAndSpeciesInGpkg (some []) ([] :: ([] : List SheetTable)) [w10File]
      = .ok [w10File]
    ∧ (buildIdToName []).lookup w10File.baseName = none
    ∧ ([w10File] : List GpkgFile)[0]? = some w10File :=
  ⟨rfl, rfl,
    unmapped_gpkg_files_untouched [] [] [] [w10File] [w10File] rfl 0 (by decide) rfl⟩
